import Mathlib

/-!
Verification of the download-request resolution and execution adapter of a
YouTube downloader front-end (src/youtube_app.py).

The external extractor (yt-dlp) is modelled abstractly: an extractor call
either raises (an error string) or returns an info dictionary whose fields
may be absent, present-but-null, or carry a value, mirroring Python
`dict.get`.  The four adapter functions `get_quality_format`,
`get_video_info`, `format_duration` and `download_video` are embedded
directly from the source.
-/

namespace YoutubeApp

/-- A field of a Python dictionary: missing key, key bound to `None`, or a
value. -/
inductive PyField (α : Type) where
  | absent : PyField α
  | null : PyField α
  | val (a : α) : PyField α
deriving DecidableEq

/-- Python `dict.get(key, default)`: the default when the key is absent,
otherwise the stored value (`None` stays `None`). -/
def PyField.get {α : Type} : PyField α → α → Option α
  | .absent, d => some d
  | .null, _ => none
  | .val a, _ => some a

/-- `str()` rendering of an optional string value inside an f-string:
Python renders `None` as the text "None". -/
def pyStr : Option String → String
  | none => "None"
  | some s => s

/-- Python character slice `s[:n]` (first `n` code points). -/
def pySlice (s : String) (n : Nat) : String := String.mk (s.data.take n)

/-- The substring `pat` occurs inside `s`. -/
def strContains (s pat : String) : Prop := pat.data <:+: s.data

instance (s pat : String) : Decidable (strContains s pat) :=
  List.decidableInfix pat.data s.data

/-- Embedding of `get_quality_format` (src/youtube_app.py lines 64-72):
a four-entry table with a default of the "1080" entry. -/
def get_quality_format (quality : String) : String :=
  if quality = "2160" then
    "bestvideo[height<=2160][ext=mp4]+bestaudio[ext=m4a]/best[height<=2160][ext=mp4]/best"
  else if quality = "1080" then
    "bestvideo[height<=1080][ext=mp4]+bestaudio[ext=m4a]/best[height<=1080][ext=mp4]/best"
  else if quality = "720" then
    "bestvideo[height<=720][ext=mp4]+bestaudio[ext=m4a]/best[height<=720][ext=mp4]/best"
  else if quality = "480" then
    "bestvideo[height<=480][ext=mp4]+bestaudio[ext=m4a]/best[height<=480][ext=mp4]/best"
  else
    "bestvideo[height<=1080][ext=mp4]+bestaudio[ext=m4a]/best[height<=1080][ext=mp4]/best"

/-- The metadata dictionary an extractor `extract_info(url, download=False)`
call may return (the fields `get_video_info` reads). -/
structure InfoDict where
  title : PyField String
  channel : PyField String
  duration : PyField Int
  thumbnail : PyField String
  view_count : PyField Int
  description : PyField String
deriving DecidableEq

/-- The success record built by `get_video_info`.  `Option` carries Python
values that may be `None` (a null field passes through `dict.get`). -/
structure VideoInfo where
  title : Option String
  channel : Option String
  duration : Option Int
  thumbnail : Option String
  views : Option Int
  description : String
deriving DecidableEq

/-- Result of `get_video_info`: the success dict or the failure dict
carrying `str(e)`. -/
inductive InfoResult where
  | ok (v : VideoInfo) : InfoResult
  | err (msg : String) : InfoResult
deriving DecidableEq

/-- Modelled text of the `TypeError` Python raises when `None` is sliced. -/
def noneTypeError : String := "NoneType object is not subscriptable"

/-- Embedding of `get_video_info` (src/youtube_app.py lines 74-99).  The
extractor call is the argument: `Except.error e` models the call raising
with `str(e) = e`; `Except.ok info` models it returning `info`.  Slicing a
null description raises, which the generic handler turns into a failure
record. -/
def get_video_info (extract : Except String InfoDict) : InfoResult :=
  match extract with
  | .error e => .err e
  | .ok info =>
    match info.description.get "" with
    | none => .err noneTypeError
    | some d =>
      .ok { title := info.title.get "Unknown"
            channel := info.channel.get "Unknown"
            duration := info.duration.get 0
            thumbnail := info.thumbnail.get ""
            views := info.view_count.get 0
            description := pySlice d 200 ++ "..." }

/-- Python `f"\x7bn:02d\x7d"` for an integer: zero-pad to width two. -/
def pad2 (n : Int) : String :=
  if 0 ≤ n ∧ n < 10 then "0" ++ toString n else toString n

/-- Embedding of `format_duration` (src/youtube_app.py lines 101-110).
`none` models Python `None`; `not seconds` is true exactly on `None` and
`0`.  Python `//` and `%` are floor division and floor modulus. -/
def format_duration (seconds : Option Int) : String :=
  match seconds with
  | none => "Unknown"
  | some s =>
    if s = 0 then "Unknown"
    else
      let hours := s.fdiv 3600
      let minutes := (s.fmod 3600).fdiv 60
      let secs := s.fmod 60
      if hours > 0 then pad2 hours ++ ":" ++ pad2 minutes ++ ":" ++ pad2 secs
      else pad2 minutes ++ ":" ++ pad2 secs

/-- The metadata fields `download_video` reads from the extractor result. -/
structure DlInfo where
  title : PyField String
  height : PyField Int
deriving DecidableEq

/-- The options dictionary `download_video` hands to the extractor. -/
structure YdlOpts where
  format : String
  outtmpl : String
  merge_output_format : String
  quiet : Bool
  no_warnings : Bool
  noplaylist : Bool
deriving DecidableEq

/-- The `ydl_opts` built by `download_video` (src/youtube_app.py
lines 116-123). -/
def download_opts (quality output_path : String) : YdlOpts :=
  { format := get_quality_format quality
    outtmpl := output_path ++ "/%(title)s_%(height)sp.%(ext)s"
    merge_output_format := "mp4"
    quiet := false
    no_warnings := false
    noplaylist := true }

/-- Result of `download_video`: success dict (title value and reconstructed
filename) or failure dict carrying `str(e)`. -/
inductive DownloadResult where
  | ok (title : Option String) (filename : String) : DownloadResult
  | err (msg : String) : DownloadResult
deriving DecidableEq

/-- `str()` of `info.get("height", quality)` inside the f-string: the
reported height if present, "None" if null, the quality tier string if the
key is absent. -/
def heightStr (h : PyField Int) (quality : String) : String :=
  match h with
  | .absent => quality
  | .null => "None"
  | .val n => toString n

/-- Embedding of `download_video` (src/youtube_app.py lines 112-137).  The
extractor call `extract_info(url, download=True)` is the `extract`
argument.  On success the filename is rebuilt locally from the reported
title and height with a hard-coded ".mp4" extension; on failure `str(e)`
is passed through. -/
def download_video (quality output_path : String)
    (extract : Except String DlInfo) : DownloadResult :=
  match extract with
  | .error e => .err e
  | .ok info =>
    .ok (info.title.get "Unknown")
      (output_path ++ "/" ++ pyStr (info.title.get "Unknown") ++ "_"
        ++ heightStr info.height quality ++ "p.mp4")

/-- C1: for each of the four tiers the format expression splits on "/"
into exactly the three documented preference levels: merged best-video
(mp4, height-capped) plus best m4a audio, then a pre-merged mp4 capped at
the height, then unrestricted best. -/
theorem quality_format_three_levels :
    (get_quality_format "2160").data.splitOn ('/') =
      ["bestvideo[height<=2160][ext=mp4]+bestaudio[ext=m4a]".data,
       "best[height<=2160][ext=mp4]".data, "best".data] ∧
    (get_quality_format "1080").data.splitOn ('/') =
      ["bestvideo[height<=1080][ext=mp4]+bestaudio[ext=m4a]".data,
       "best[height<=1080][ext=mp4]".data, "best".data] ∧
    (get_quality_format "720").data.splitOn ('/') =
      ["bestvideo[height<=720][ext=mp4]+bestaudio[ext=m4a]".data,
       "best[height<=720][ext=mp4]".data, "best".data] ∧
    (get_quality_format "480").data.splitOn ('/') =
      ["bestvideo[height<=480][ext=mp4]+bestaudio[ext=m4a]".data,
       "best[height<=480][ext=mp4]".data, "best".data] := by
  refine ⟨?_, ?_, ?_, ?_⟩ <;> rfl

/-- C2: a quality string that is none of the four supported tiers yields
exactly the tier-1080 format expression. -/
theorem quality_format_default (q : String)
    (h1 : q ≠ "2160") (h2 : q ≠ "1080") (h3 : q ≠ "720") (h4 : q ≠ "480") :
    get_quality_format q = get_quality_format "1080" := by
  simp [get_quality_format, h1, h2, h3, h4]

/-- Witness for C2 at the concrete unsupported tier "999". -/
theorem quality_format_default_witness :
    ("999" ≠ "2160" ∧ "999" ≠ "1080" ∧ "999" ≠ "720" ∧ "999" ≠ "480") ∧
      get_quality_format "999" = get_quality_format "1080" :=
  ⟨by decide,
   quality_format_default "999" (by decide) (by decide) (by decide) (by decide)⟩

/-- C8: `format_duration` maps null and 0 to "Unknown", 65 to "01:05"
(zero-padded MM:SS under one hour) and 3661 to "01:01:01" (zero-padded
HH:MM:SS from one hour up). -/
theorem format_duration_spec :
    format_duration none = "Unknown" ∧
    format_duration (some 0) = "Unknown" ∧
    format_duration (some 65) = "01:05" ∧
    format_duration (some 3661) = "01:01:01" := by
  refine ⟨rfl, ?_, ?_, ?_⟩ <;> rfl

/-- C4: when the extractor call inside `download_video` raises, the
failure record carries the raw error text unmodified; the extractor is
invoked exactly once (the model consumes a single extractor outcome), so
no retry and no cleanup can occur. -/
theorem download_error_passthrough (quality output_path e : String) :
    download_video quality output_path (.error e) = .err e := rfl

/-- C5: when the extractor call inside `get_video_info` raises, the result
is the failure record carrying the raw error text verbatim (hence
non-empty whenever the extractor text is), and no success record with
metadata fields is produced. -/
theorem info_error_passthrough (e : String) (h : e ≠ "") :
    get_video_info (.error e) = .err e ∧ e.length ≠ 0 ∧
      ∀ v, get_video_info (.error e) ≠ .ok v := by
  refine ⟨rfl, ?_, ?_⟩
  · intro hl
    exact h (String.ext (by simpa using List.length_eq_zero.mp hl))
  · intro v hv
    exact InfoResult.noConfusion hv

/-- Witness for C5 at a concrete non-empty extractor error text. -/
theorem info_error_passthrough_witness :
    ("HTTP Error 404: Not Found" ≠ "") ∧
      (get_video_info (.error "HTTP Error 404: Not Found") =
          .err "HTTP Error 404: Not Found" ∧
        "HTTP Error 404: Not Found".length ≠ 0 ∧
        ∀ v, get_video_info (.error "HTTP Error 404: Not Found") ≠ .ok v) :=
  ⟨by decide, info_error_passthrough "HTTP Error 404: Not Found" (by decide)⟩

/-- C10: an extractor result whose description key is present but bound to
`None` makes `get_video_info` return a failure record (slicing `None`
raises and the generic handler catches it), never a metadata record. -/
theorem null_description_fails (info : InfoDict)
    (h : info.description = PyField.null) :
    get_video_info (.ok info) = .err noneTypeError ∧
      ∀ v, get_video_info (.ok info) ≠ .ok v := by
  have hd : info.description.get "" = none := by rw [h]; rfl
  refine ⟨?_, ?_⟩
  · simp [get_video_info, hd]
  · intro v hv
    simp [get_video_info, hd] at hv

/-- Witness for C10: a fully populated extractor result whose description
is null. -/
def nullDescInfo : InfoDict :=
  ⟨.val "Title", .val "Channel", .val 10, .val "thumb", .val 5, .null⟩

/-- Witness for C10 at `nullDescInfo`. -/
theorem null_description_fails_witness :
    (nullDescInfo.description = PyField.null) ∧
      (get_video_info (.ok nullDescInfo) = .err noneTypeError ∧
        ∀ v, get_video_info (.ok nullDescInfo) ≠ .ok v) :=
  ⟨rfl, null_description_fails nullDescInfo rfl⟩

/-- C6: the description excerpt is always the 200-code-point slice of the
reported description followed by the three-character ellipsis marker; for
a description longer than 200 characters the excerpt has length exactly
203 and its sliced part is a prefix of the input, and for a description of
at most 200 characters the excerpt is the whole input plus the marker. -/
theorem description_truncation (info : InfoDict) (d : String)
    (h : info.description = PyField.val d) :
    ∃ v, get_video_info (.ok info) = .ok v ∧
      v.description = pySlice d 200 ++ "..." ∧
      (pySlice d 200).data <+: d.data ∧
      (200 < d.length → v.description.length = 203) ∧
      (d.length ≤ 200 → v.description = d ++ "...") := by
  have hd : info.description.get "" = some d := by rw [h]; rfl
  refine ⟨{ title := info.title.get "Unknown", channel := info.channel.get "Unknown",
            duration := info.duration.get 0, thumbnail := info.thumbnail.get "",
            views := info.view_count.get 0, description := pySlice d 200 ++ "..." },
    by simp [get_video_info, hd], rfl, List.take_prefix 200 d.data, ?_, ?_⟩
  · intro hlen
    show (pySlice d 200 ++ "...").length = 203
    rw [String.length_append]
    show (String.mk (d.data.take 200)).length + 3 = 203
    have hlen2 : 200 < d.data.length := hlen
    rw [String.length_mk, List.length_take]
    omega
  · intro hle
    show pySlice d 200 ++ "..." = d ++ "..."
    have : d.data.take 200 = d.data := List.take_of_length_le hle
    show String.mk (d.data.take 200) ++ "..." = d ++ "..."
    rw [this]

/-- A 201-character description, above the truncation threshold. -/
def longDesc : String := String.mk (List.replicate 201 'a')

/-- An extractor result reporting only the long description. -/
def longDescInfo : InfoDict :=
  ⟨.absent, .absent, .absent, .absent, .absent, .val longDesc⟩

/-- Witness for C6 at the 201-character description. -/
theorem description_truncation_witness :
    (longDescInfo.description = PyField.val longDesc) ∧
      (∃ v, get_video_info (.ok longDescInfo) = .ok v ∧
        v.description = pySlice longDesc 200 ++ "..." ∧
        (pySlice longDesc 200).data <+: longDesc.data ∧
        (200 < longDesc.length → v.description.length = 203) ∧
        (longDesc.length ≤ 200 → v.description = longDesc ++ "...")) :=
  ⟨rfl, description_truncation longDescInfo longDesc rfl⟩

/-- An extractor result in which every metadata key is absent. -/
def allAbsentInfo : InfoDict :=
  ⟨.absent, .absent, .absent, .absent, .absent, .absent⟩

/-- The record `get_video_info` builds from `allAbsentInfo`. -/
def allAbsentDefaults : VideoInfo :=
  ⟨some "Unknown", some "Unknown", some 0, some "", some 0, "..."⟩

/-- C7 counterexample: with every key absent, the thumbnail field defaults
to the empty string, not to "Unknown" as the claim states. -/
theorem thumbnail_default_counterexample :
    get_video_info (.ok allAbsentInfo) = .ok allAbsentDefaults ∧
      allAbsentDefaults.thumbnail = some "" ∧
      allAbsentDefaults.thumbnail ≠ some "Unknown" := by decide

/-- C7 amended: on a successful resolution, absent title and channel
default to "Unknown", the absent thumbnail defaults to the empty string,
and absent duration and view count default to 0. -/
theorem absent_field_defaults (info : InfoDict) (v : VideoInfo)
    (h : get_video_info (.ok info) = .ok v) :
    (info.title = PyField.absent → v.title = some "Unknown") ∧
    (info.channel = PyField.absent → v.channel = some "Unknown") ∧
    (info.thumbnail = PyField.absent → v.thumbnail = some "") ∧
    (info.duration = PyField.absent → v.duration = some 0) ∧
    (info.view_count = PyField.absent → v.views = some 0) := by
  cases hd : info.description.get "" with
  | none => simp [get_video_info, hd] at h
  | some d =>
    simp only [get_video_info, hd, InfoResult.ok.injEq] at h
    refine ⟨fun ha => ?_, fun ha => ?_, fun ha => ?_, fun ha => ?_,
      fun ha => ?_⟩ <;> simp [← h, ha, PyField.get]

/-- Witness for C7 amended at the all-absent extractor result. -/
theorem absent_field_defaults_witness :
    (get_video_info (.ok allAbsentInfo) = .ok allAbsentDefaults) ∧
      ((allAbsentInfo.title = PyField.absent →
          allAbsentDefaults.title = some "Unknown") ∧
       (allAbsentInfo.channel = PyField.absent →
          allAbsentDefaults.channel = some "Unknown") ∧
       (allAbsentInfo.thumbnail = PyField.absent →
          allAbsentDefaults.thumbnail = some "") ∧
       (allAbsentInfo.duration = PyField.absent →
          allAbsentDefaults.duration = some 0) ∧
       (allAbsentInfo.view_count = PyField.absent →
          allAbsentDefaults.views = some 0)) :=
  ⟨by decide, absent_field_defaults allAbsentInfo allAbsentDefaults (by decide)⟩

/-- C3 counterexample: with tier "720" and an extractor that resolves a
480p stream (a stream at or below 720p), the success filename contains
"_480p." and not "_720p.". -/
theorem download_720_resolves_480_counterexample :
    download_video "720" "out" (.ok ⟨PyField.val "Video", PyField.val 480⟩) =
      .ok (some "Video") "out/Video_480p.mp4" ∧
    ¬ strContains "out/Video_480p.mp4" "_720p." ∧
    strContains "out/Video_480p.mp4" "_480p." ∧ (480 : Int) ≤ 720 := by
  decide

/-- C3 amended: on success the record carries the title value and a
filename rebuilt from the naming template out of the reported title and
resolved height; for tier "720" the filename contains "_720p." when the
resolved height is exactly 720. -/
theorem download_success_filename (quality output_path : String)
    (info : DlInfo) (t : Option String) (f : String)
    (h : download_video quality output_path (.ok info) = .ok t f) :
    t = info.title.get "Unknown" ∧
    f = output_path ++ "/" ++ pyStr (info.title.get "Unknown") ++ "_"
        ++ heightStr info.height quality ++ "p.mp4" ∧
    (info.height = PyField.val 720 → strContains f "_720p.") := by
  simp only [download_video, DownloadResult.ok.injEq] at h
  obtain ⟨ht, hf⟩ := h
  subst ht
  subst hf
  refine ⟨rfl, rfl, fun hh => ?_⟩
  rw [hh]
  have h720 : heightStr (PyField.val 720) quality = "720" := by
    show toString (720 : Int) = "720"
    decide
  rw [h720]
  refine ⟨(output_path ++ "/" ++ pyStr (info.title.get "Unknown")).data,
    "mp4".data, ?_⟩
  have tails : ("_720p." : String).data ++ ("mp4" : String).data =
      ("_" : String).data ++ (("720" : String).data ++
        ("p.mp4" : String).data) := by decide
  simp only [String.data_append, List.append_assoc, tails]

/-- A concrete extractor download result resolving a 720p stream. -/
def clip720 : DlInfo := ⟨PyField.val "Clip", PyField.val 720⟩

/-- Witness for C3 amended at tier "720" with resolved height 720. -/
theorem download_success_filename_witness :
    (download_video "720" "outdir" (.ok clip720) =
        .ok (some "Clip") "outdir/Clip_720p.mp4") ∧
      (some "Clip" = clip720.title.get "Unknown" ∧
       "outdir/Clip_720p.mp4" = "outdir" ++ "/" ++
          pyStr (clip720.title.get "Unknown") ++ "_" ++
          heightStr clip720.height "720" ++ "p.mp4" ∧
       (clip720.height = PyField.val 720 →
          strContains "outdir/Clip_720p.mp4" "_720p.")) :=
  ⟨by decide, download_success_filename "720" "outdir" clip720
    (some "Clip") "outdir/Clip_720p.mp4" (by decide)⟩

/-- C9: every success filename reported by `download_video` ends in the
hard-coded ".mp4", while the output template handed to the extractor ends
in the actual-extension placeholder "%(ext)s" (the merge target being
"mp4"), so the reported name can diverge from the written file when an
unmerged non-mp4 stream is delivered. -/
theorem download_filename_mp4_ext (quality output_path : String)
    (extract : Except String DlInfo) (t : Option String) (f : String)
    (h : download_video quality output_path extract = .ok t f) :
    (∃ pre, f = pre ++ ".mp4") ∧
    (∃ pre, (download_opts quality output_path).outtmpl = pre ++ "%(ext)s") ∧
    (download_opts quality output_path).merge_output_format = "mp4" := by
  refine ⟨?_, ?_, rfl⟩
  · cases extract with
    | error e => exact absurd h (by simp [download_video])
    | ok info =>
      simp only [download_video, DownloadResult.ok.injEq] at h
      obtain ⟨ht, hf⟩ := h
      refine ⟨output_path ++ "/" ++ pyStr (info.title.get "Unknown") ++ "_"
        ++ heightStr info.height quality ++ "p", ?_⟩
      rw [← hf]
      apply String.ext
      have tails : ("p" : String).data ++ (".mp4" : String).data =
          ("p.mp4" : String).data := by decide
      simp only [String.data_append, List.append_assoc, tails]
  · refine ⟨output_path ++ "/%(title)s_%(height)sp.", ?_⟩
    apply String.ext
    have tails : ("/%(title)s_%(height)sp." : String).data ++
        ("%(ext)s" : String).data =
        ("/%(title)s_%(height)sp.%(ext)s" : String).data := by decide
    simp only [download_opts, String.data_append, List.append_assoc, tails]

/-- A concrete extractor download result with an absent height key. -/
def song1080 : DlInfo := ⟨PyField.val "Song", PyField.absent⟩

/-- Witness for C9 at a concrete success (absent height, tier fills in). -/
theorem download_filename_mp4_ext_witness :
    (download_video "1080" "dl" (.ok song1080) =
        .ok (some "Song") "dl/Song_1080p.mp4") ∧
      ((∃ pre, "dl/Song_1080p.mp4" = pre ++ ".mp4") ∧
       (∃ pre, (download_opts "1080" "dl").outtmpl = pre ++ "%(ext)s") ∧
       (download_opts "1080" "dl").merge_output_format = "mp4") :=
  ⟨by decide, download_filename_mp4_ext "1080" "dl" (.ok song1080)
    (some "Song") "dl/Song_1080p.mp4" (by decide)⟩

end YoutubeApp
